import Mathlib

/-!
Shallow embedding of the MySQL-Migration catalog (src/schema.sql,
src/schema_enhancements.sql, src/schema_performance.sql) and of the UI
computations (src/ui, src/unnamed), with theorems settling the frozen claims
about counter coherence, the reaper, retry back-off, the failure supervisor,
status CHECK constraints, the adaptive batch controller, the planner's chunk
ranges, and progress percentages.

Rows of the catalog tables are Lean structures; SQL statuses are strings
constrained exactly as the schema's CHECK clauses constrain them; timestamps
are integers (seconds); the counter-update trigger, the stale-chunk detector
and the views are Lean functions over lists of rows.  Components of the
engine that exist in the repository but not under src/ (the catalog-store
operations, the dispatcher, the planner, the adaptive controller) are
modelled from the spec and marked as such in their doc comments.
-/

namespace MySQLMigration

/-- A row of migration_jobs (src/schema.sql:81-105, plus the
failure-escalation columns of src/schema_enhancements.sql:21-23). -/
structure JobRow where
  id : Nat
  status : String
  totalTables : Nat
  totalChunks : Nat
  completedChunks : Nat
  failedChunks : Nat
  failureThresholdPercent : Nat
  autoFailedAt : Option Int
  deriving Repr, DecidableEq

/-- A row of migration_tables (src/schema.sql:115-134). -/
structure TableRow where
  id : Nat
  jobId : Nat
  totalChunks : Nat
  completedChunks : Nat
  failedChunks : Nat
  updatedAt : Int
  deriving Repr, DecidableEq

/-- A row of migration_chunks (src/schema.sql:144-177, plus the worker and
retry columns of src/schema_enhancements.sql:7-12). -/
structure ChunkRow where
  id : Nat
  jobId : Nat
  tableId : Nat
  pkStart : Int
  pkEnd : Int
  status : String
  retryCount : Nat
  maxRetries : Nat
  workerId : Option String
  nextRetryAt : Option Int
  lastHeartbeat : Option Int
  lastError : Option String
  deriving Repr, DecidableEq

/-- Schema default for migration_chunks.max_retries (src/schema.sql:161). -/
def defaultMaxRetries : Nat := 3

/-- Chunks of a job counted by the trigger's completed subquery
(src/schema.sql:259-262). -/
def jobCompletedCount (chunks : List ChunkRow) (jobId : Nat) : Nat :=
  (chunks.filter (fun c => c.jobId == jobId && c.status == "completed")).length

/-- Chunks of a job counted by the trigger's failed subquery
(src/schema.sql:263-266): every chunk whose status is failed, with no
condition on retry_count. -/
def jobFailedCount (chunks : List ChunkRow) (jobId : Nat) : Nat :=
  (chunks.filter (fun c => c.jobId == jobId && c.status == "failed")).length

/-- Chunks of a table counted by the trigger's completed subquery
(src/schema.sql:272-275). -/
def tableCompletedCount (chunks : List ChunkRow) (tableId : Nat) : Nat :=
  (chunks.filter (fun c => c.tableId == tableId && c.status == "completed")).length

/-- Chunks of a table counted by the trigger's failed subquery
(src/schema.sql:276-279). -/
def tableFailedCount (chunks : List ChunkRow) (tableId : Nat) : Nat :=
  (chunks.filter (fun c => c.tableId == tableId && c.status == "failed")).length

/-- All chunk rows belonging to one job. -/
def jobChunkTotal (chunks : List ChunkRow) (jobId : Nat) : Nat :=
  (chunks.filter (fun c => c.jobId == jobId)).length

/-- The spec's count for a job's failed_chunks (spec section 8, "Counter
coherence"): chunks whose status is failed AND whose retry_count equals
max_retries. -/
def specJobFailedCount (chunks : List ChunkRow) (jobId : Nat) : Nat :=
  (chunks.filter (fun c =>
    c.jobId == jobId && c.status == "failed" && c.retryCount == c.maxRetries)).length

/-- The trigger function update_job_counters (src/schema.sql:252-292), fired
AFTER UPDATE on migration_chunks.  When the update changed the row's status
it recomputes completed_chunks and failed_chunks on the parent job and the
parent table from counts over the (post-update) chunk rows, and stamps the
table's updated_at; otherwise it does nothing.  chunks is the chunk relation
after the row update; oldRow and newRow are the trigger's OLD and NEW. -/
def update_job_counters (now : Int) (chunks : List ChunkRow)
    (oldRow newRow : ChunkRow) (jobs : List JobRow) (tables : List TableRow) :
    List JobRow × List TableRow :=
  if oldRow.status ≠ newRow.status then
    (jobs.map fun j =>
      if j.id == newRow.jobId then
        { j with
          completedChunks := jobCompletedCount chunks newRow.jobId
          failedChunks := jobFailedCount chunks newRow.jobId }
      else j,
     tables.map fun t =>
      if t.id == newRow.tableId then
        { t with
          completedChunks := tableCompletedCount chunks newRow.tableId
          failedChunks := tableFailedCount chunks newRow.tableId
          updatedAt := now }
      else t)
  else (jobs, tables)

/-- Concrete chunk for the counter claims: just failed for the first time,
retry_count 0 of max_retries 3. -/
def exChunkFailedOnce : ChunkRow :=
  { id := 1, jobId := 1, tableId := 1, pkStart := 0, pkEnd := 10,
    status := "failed", retryCount := 0, maxRetries := 3,
    workerId := none, nextRetryAt := none, lastHeartbeat := none,
    lastError := some "boom" }

/-- The same chunk before the failing update: it was running. -/
def exChunkRunning : ChunkRow :=
  { exChunkFailedOnce with
    status := "running"
    workerId := some "w1"
    lastError := none }

/-- Parent job row for the counter claims. -/
def exJob : JobRow :=
  { id := 1, status := "running", totalTables := 1, totalChunks := 1,
    completedChunks := 0, failedChunks := 0, failureThresholdPercent := 5,
    autoFailedAt := none }

/-- Parent table row for the counter claims. -/
def exTable : TableRow :=
  { id := 1, jobId := 1, totalChunks := 1, completedChunks := 0,
    failedChunks := 0, updatedAt := 0 }

/-- C1 counterexample: after a running-to-failed transition of a chunk with
retry_count 0 < max_retries 3, the trigger sets the parent job's
failed_chunks to 1 (it counts every chunk with status failed), while the
claim's count of chunks with status failed and retry_count = max_retries is
0; the claimed equality fails. -/
theorem update_job_counters_failed_count_ignores_retry :
    ((update_job_counters 0 [exChunkFailedOnce] exChunkRunning exChunkFailedOnce
        [exJob] [exTable]).1.map JobRow.failedChunks = [1]) ∧
    specJobFailedCount [exChunkFailedOnce] 1 = 0 ∧
    ¬ ((update_job_counters 0 [exChunkFailedOnce] exChunkRunning exChunkFailedOnce
        [exJob] [exTable]).1.map JobRow.failedChunks
          = [specJobFailedCount [exChunkFailedOnce] 1]) := by
  refine ⟨by decide, by decide, by decide⟩

/-- C1 (amended): after any UPDATE of a migration_chunks row that changes its
status, the trigger leaves the parent job's and parent table's
completed_chunks equal to the count of their chunks with status completed,
and their failed_chunks equal to the count of their chunks with status
failed (with no retry_count condition). -/
theorem update_job_counters_recomputes_parent_counts (now : Int)
    (chunks : List ChunkRow) (oldRow newRow : ChunkRow)
    (jobs : List JobRow) (tables : List TableRow)
    (h : oldRow.status ≠ newRow.status) :
    (∀ j ∈ (update_job_counters now chunks oldRow newRow jobs tables).1,
      j.id = newRow.jobId →
        j.completedChunks = jobCompletedCount chunks newRow.jobId ∧
        j.failedChunks = jobFailedCount chunks newRow.jobId) ∧
    (∀ t ∈ (update_job_counters now chunks oldRow newRow jobs tables).2,
      t.id = newRow.tableId →
        t.completedChunks = tableCompletedCount chunks newRow.tableId ∧
        t.failedChunks = tableFailedCount chunks newRow.tableId) := by
  unfold update_job_counters
  simp only [if_pos h]
  constructor
  · intro j hj hid
    rcases List.mem_map.mp hj with ⟨j0, _, rfl⟩
    by_cases hb : (j0.id == newRow.jobId) = true
    · simp [hb]
    · simp only [hb, if_neg, Bool.false_eq_true, not_false_eq_true, if_false] at hid ⊢
      exact absurd (by exact beq_iff_eq.mpr hid) hb
  · intro t ht hid
    rcases List.mem_map.mp ht with ⟨t0, _, rfl⟩
    by_cases hb : (t0.id == newRow.tableId) = true
    · simp [hb]
    · simp only [hb, if_neg, Bool.false_eq_true, not_false_eq_true, if_false] at hid ⊢
      exact absurd (by exact beq_iff_eq.mpr hid) hb

/-- Witness for the amended C1 at the concrete running-to-failed update. -/
theorem update_job_counters_recomputes_parent_counts_witness :
    (∀ j ∈ (update_job_counters 0 [exChunkFailedOnce] exChunkRunning
        exChunkFailedOnce [exJob] [exTable]).1,
      j.id = exChunkFailedOnce.jobId →
        j.completedChunks = jobCompletedCount [exChunkFailedOnce] exChunkFailedOnce.jobId ∧
        j.failedChunks = jobFailedCount [exChunkFailedOnce] exChunkFailedOnce.jobId) ∧
    (∀ t ∈ (update_job_counters 0 [exChunkFailedOnce] exChunkRunning
        exChunkFailedOnce [exJob] [exTable]).2,
      t.id = exChunkFailedOnce.tableId →
        t.completedChunks = tableCompletedCount [exChunkFailedOnce] exChunkFailedOnce.tableId ∧
        t.failedChunks = tableFailedCount [exChunkFailedOnce] exChunkFailedOnce.tableId) :=
  update_job_counters_recomputes_parent_counts 0 [exChunkFailedOnce]
    exChunkRunning exChunkFailedOnce [exJob] [exTable] (by decide)

/-- Lengths of two filters with incompatible predicates are jointly bounded
by the length of the list. -/
theorem length_filter_add_length_filter_le {α : Type} (l : List α)
    (p q : α → Bool) (h : ∀ a, p a = true → q a = true → False) :
    (l.filter p).length + (l.filter q).length ≤ l.length := by
  induction l with
  | nil => simp
  | cons a l ih =>
    cases hp : p a with
    | true =>
      have hq : q a = false := by
        cases hqv : q a
        · rfl
        · exact (h a hp hqv).elim
      simp only [List.filter_cons, hp, hq, if_true, if_false, List.length_cons,
        Bool.false_eq_true]
      simp only [List.filter_cons, hp, hq] at *
      simp_all
      omega
    | false =>
      cases hq : q a <;> simp_all [List.filter_cons] <;> omega

/-- A job's completed count plus its failed count never exceeds the number of
its chunk rows: completed and failed are incompatible statuses. -/
theorem jobCompleted_add_jobFailed_le_total (chunks : List ChunkRow)
    (jobId : Nat) :
    jobCompletedCount chunks jobId + jobFailedCount chunks jobId ≤
      jobChunkTotal chunks jobId := by
  have hc : jobCompletedCount chunks jobId =
      ((chunks.filter (fun c => c.jobId == jobId)).filter
        (fun c => c.status == "completed")).length := by
    simp [jobCompletedCount, List.filter_filter, Bool.and_comm]
  have hf : jobFailedCount chunks jobId =
      ((chunks.filter (fun c => c.jobId == jobId)).filter
        (fun c => c.status == "failed")).length := by
    simp [jobFailedCount, List.filter_filter, Bool.and_comm]
  rw [hc, hf]
  exact length_filter_add_length_filter_le _ _ _
    (fun a hp hq => by
      rw [beq_iff_eq] at hp hq
      rw [hp] at hq
      exact absurd hq (by decide))

/-- C2: the counter trigger preserves completed_chunks + failed_chunks ≤
total_chunks on every job row.  The hypotheses are the planner's contract
(total_chunks is at least the number of chunk rows of the job; the planner,
absent from src/, sets it to exactly that number) and the invariant holding
before the chunk update; the trigger leaves total_chunks untouched and
recomputes the two counters from disjoint status counts, so no observer of
the catalog sees completed + failed exceed total. -/
theorem update_job_counters_preserves_counter_bound (now : Int)
    (chunks : List ChunkRow) (oldRow newRow : ChunkRow)
    (jobs : List JobRow) (tables : List TableRow)
    (hTot : ∀ j ∈ jobs, jobChunkTotal chunks j.id ≤ j.totalChunks)
    (hInv : ∀ j ∈ jobs, j.completedChunks + j.failedChunks ≤ j.totalChunks) :
    ∀ j ∈ (update_job_counters now chunks oldRow newRow jobs tables).1,
      j.completedChunks + j.failedChunks ≤ j.totalChunks := by
  intro j hj
  unfold update_job_counters at hj
  by_cases hs : oldRow.status ≠ newRow.status
  · simp only [if_pos hs] at hj
    rcases List.mem_map.mp hj with ⟨j0, hj0, rfl⟩
    by_cases hb : (j0.id == newRow.jobId) = true
    · have hid : j0.id = newRow.jobId := beq_iff_eq.mp hb
      simp only [hb, if_true]
      calc jobCompletedCount chunks newRow.jobId +
            jobFailedCount chunks newRow.jobId
          ≤ jobChunkTotal chunks newRow.jobId :=
            jobCompleted_add_jobFailed_le_total chunks newRow.jobId
        _ = jobChunkTotal chunks j0.id := by rw [hid]
        _ ≤ j0.totalChunks := hTot j0 hj0
    · simp only [hb, Bool.false_eq_true, if_false]
      exact hInv j0 hj0
  · simp only [if_neg hs] at hj
    exact hInv j hj

/-- The parent job row as the trigger leaves it after the concrete
running-to-failed update: completed 0, failed 1 of 1 chunk. -/
def exJobAfter : JobRow := { exJob with completedChunks := 0, failedChunks := 1 }

/-- Witness for C2 at the concrete one-chunk catalog: the updated job row
satisfies the counter bound. -/
theorem update_job_counters_preserves_counter_bound_witness :
    exJobAfter.completedChunks + exJobAfter.failedChunks ≤
      exJobAfter.totalChunks := by
  have h := update_job_counters_preserves_counter_bound 0 [exChunkFailedOnce]
    exChunkRunning exChunkFailedOnce [exJob] [exTable] (by decide) (by decide)
  exact h exJobAfter (by decide)

/-- Lists map equally under pointwise-equal functions. -/
theorem map_eq_of_pointwise {α β : Type} (l : List α) (f g : α → β)
    (h : ∀ a, f a = g a) : l.map f = l.map g := by
  induction l with
  | nil => rfl
  | cons a l ih => simp [h a, ih]

/-- C10: a chunk UPDATE that leaves status unchanged leaves the job and table
relations untouched (the trigger body is guarded by OLD.status != NEW.status),
and no firing of the trigger ever modifies a job's id, total_chunks,
total_tables or status, nor a table's id, job_id or total_chunks. -/
theorem update_job_counters_frame (now : Int) (chunks : List ChunkRow)
    (oldRow newRow : ChunkRow) (jobs : List JobRow) (tables : List TableRow) :
    (oldRow.status = newRow.status →
      update_job_counters now chunks oldRow newRow jobs tables =
        (jobs, tables)) ∧
    ((update_job_counters now chunks oldRow newRow jobs tables).1.map
        (fun j => (j.id, j.totalChunks, j.totalTables, j.status))
      = jobs.map (fun j => (j.id, j.totalChunks, j.totalTables, j.status))) ∧
    ((update_job_counters now chunks oldRow newRow jobs tables).2.map
        (fun t => (t.id, t.jobId, t.totalChunks))
      = tables.map (fun t => (t.id, t.jobId, t.totalChunks))) := by
  refine ⟨fun h => by simp [update_job_counters, h], ?_, ?_⟩
  · unfold update_job_counters
    by_cases hs : oldRow.status ≠ newRow.status
    · simp only [if_pos hs, List.map_map]
      exact map_eq_of_pointwise _ _ _ (fun j => by
        by_cases hb : (j.id == newRow.jobId) = true <;>
          simp [hb, Function.comp])
    · simp [if_neg hs]
  · unfold update_job_counters
    by_cases hs : oldRow.status ≠ newRow.status
    · simp only [if_pos hs, List.map_map]
      exact map_eq_of_pointwise _ _ _ (fun t => by
        by_cases hb : (t.id == newRow.tableId) = true <;>
          simp [hb, Function.comp])
    · simp [if_neg hs]

/-- Witness for C10 at the concrete catalog, exercising the unchanged-status
branch with a pure heartbeat update. -/
theorem update_job_counters_frame_witness :
    (exChunkRunning.status =
        ({ exChunkRunning with lastHeartbeat := some 50 } : ChunkRow).status →
      update_job_counters 0 [{ exChunkRunning with lastHeartbeat := some 50 }]
        exChunkRunning { exChunkRunning with lastHeartbeat := some 50 }
        [exJob] [exTable] = ([exJob], [exTable])) ∧
    ((update_job_counters 0 [{ exChunkRunning with lastHeartbeat := some 50 }]
        exChunkRunning { exChunkRunning with lastHeartbeat := some 50 }
        [exJob] [exTable]).1.map
        (fun j => (j.id, j.totalChunks, j.totalTables, j.status))
      = [exJob].map (fun j => (j.id, j.totalChunks, j.totalTables, j.status))) ∧
    ((update_job_counters 0 [{ exChunkRunning with lastHeartbeat := some 50 }]
        exChunkRunning { exChunkRunning with lastHeartbeat := some 50 }
        [exJob] [exTable]).2.map
        (fun t => (t.id, t.jobId, t.totalChunks))
      = [exTable].map (fun t => (t.id, t.jobId, t.totalChunks))) :=
  update_job_counters_frame 0 [{ exChunkRunning with lastHeartbeat := some 50 }]
    exChunkRunning { exChunkRunning with lastHeartbeat := some 50 }
    [exJob] [exTable]

/-- Back-off base in seconds (spec section 4.1.3: base = 10 s unless
configured otherwise). -/
def backoffBaseSeconds : Nat := 10

/-- Back-off cap in seconds (spec section 4.1.3: cap = 600 s unless
configured otherwise). -/
def backoffCapSeconds : Nat := 600

/-- Modelled from the spec: the retry back-off of section 4.1.3,
backoff(n) = min(base * 2 ^ n, cap).  No back-off code is under src/; the
only schema artifact is the partial index idx_chunks_retry on next_retry_at
(src/schema_enhancements.sql:18). -/
def backoff (n : Nat) : Nat := min (backoffBaseSeconds * 2 ^ n) backoffCapSeconds

/-- Modelled from the spec: the catalog-store operation failChunk of
section 4.1 is not under src/ (only its schema artifacts are).  It
increments retry_count; while the incremented count is below max_retries the
chunk returns to pending with next_retry_at = now + backoff(incremented
count) — section 8 scenario 2 fixes the back-off argument as the incremented
count (first reap gives retry_count 1 and next_retry_at = now + 20 s) —
otherwise the chunk is marked terminally failed.  The error message lands in
last_error either way. -/
def failChunk (now : Int) (errorMsg : String) (c : ChunkRow) : ChunkRow :=
  let rc := c.retryCount + 1
  if rc < c.maxRetries then
    { c with
      retryCount := rc
      status := "pending"
      nextRetryAt := some (now + (backoff rc : Int))
      lastError := some errorMsg }
  else
    { c with
      retryCount := rc
      status := "failed"
      lastError := some errorMsg }

/-- C4: failChunk increments retry_count; when the incremented count is still
below max_retries the chunk goes back to pending with next_retry_at =
now + min(10 * 2 ^ count, 600) seconds, and otherwise the chunk is marked
terminally failed with next_retry_at untouched. -/
theorem failChunk_retry_backoff (now : Int) (msg : String) (c : ChunkRow) :
    (failChunk now msg c).retryCount = c.retryCount + 1 ∧
    (c.retryCount + 1 < c.maxRetries →
      (failChunk now msg c).status = "pending" ∧
      (failChunk now msg c).nextRetryAt =
        some (now + ((min (10 * 2 ^ (c.retryCount + 1)) 600 : Nat) : Int))) ∧
    (¬ c.retryCount + 1 < c.maxRetries →
      (failChunk now msg c).status = "failed" ∧
      (failChunk now msg c).nextRetryAt = c.nextRetryAt) := by
  unfold failChunk
  by_cases h : c.retryCount + 1 < c.maxRetries <;>
    simp [h, backoff, backoffBaseSeconds, backoffCapSeconds]

/-- Witness for C4: the first failure of a fresh chunk (retry_count 0,
max_retries 3) is rescheduled 20 seconds out, matching scenario 2 of the
spec. -/
theorem failChunk_retry_backoff_witness :
    (failChunk 1000 "boom" exChunkRunning).retryCount = 1 ∧
    (failChunk 1000 "boom" exChunkRunning).status = "pending" ∧
    (failChunk 1000 "boom" exChunkRunning).nextRetryAt = some 1020 := by
  have h := failChunk_retry_backoff 1000 "boom" exChunkRunning
  refine ⟨h.1, (h.2.1 (by decide)).1, ?_⟩
  rw [(h.2.1 (by decide)).2]
  decide

/-- Default liveness threshold in seconds (src/schema.sql:295 declares
heartbeat_threshold_seconds with DEFAULT 120). -/
def defaultLivenessThresholdSeconds : Int := 120

/-- The selection predicate of detect_stale_chunks (src/schema.sql:304-305):
status running and last_heartbeat older than now minus the threshold.  A
chunk whose last_heartbeat is NULL is not selected, since the SQL comparison
with NULL is not true. -/
def isStaleRunning (now threshold : Int) (c : ChunkRow) : Bool :=
  c.status == "running" &&
    (match c.lastHeartbeat with
     | some hb => decide (hb < now - threshold)
     | none => false)

/-- The function detect_stale_chunks (src/schema.sql:295-307): the rows of
migration_chunks in state running whose last heartbeat is older than the
threshold. -/
def detect_stale_chunks (now threshold : Int) (chunks : List ChunkRow) :
    List ChunkRow :=
  chunks.filter (isStaleRunning now threshold)

/-- Staleness of a chunk, stated as a proposition. -/
def StaleRunning (now threshold : Int) (c : ChunkRow) : Prop :=
  c.status = "running" ∧ ∃ hb, c.lastHeartbeat = some hb ∧ hb < now - threshold

/-- Modelled from the spec: the action of reapDeadWorkers (section 4.1) on
one chunk is not under src/ (only the selection function detect_stale_chunks
is). For a selected chunk it clears worker_id and applies failChunk with
error "heartbeat timeout"; any other chunk is left untouched. -/
def reapOne (now threshold : Int) (c : ChunkRow) : ChunkRow :=
  if isStaleRunning now threshold c then
    failChunk now "heartbeat timeout" { c with workerId := none }
  else c

/-- Modelled from the spec: the dead-worker reap over the whole chunk
relation. -/
def reapDeadWorkers (now threshold : Int) (chunks : List ChunkRow) :
    List ChunkRow :=
  chunks.map (reapOne now threshold)

/-- The Boolean stale test decides the staleness proposition. -/
theorem isStaleRunning_iff (now threshold : Int) (c : ChunkRow) :
    isStaleRunning now threshold c = true ↔ StaleRunning now threshold c := by
  unfold isStaleRunning StaleRunning
  cases hhb : c.lastHeartbeat with
  | none => simp [hhb]
  | some hb => simp [hhb]

/-- C3: detect_stale_chunks selects exactly the running chunks whose
heartbeat is older than now minus the threshold; the reap fails each
selected chunk with error "heartbeat timeout" after clearing its worker_id,
through the same retry logic as failChunk, and touches no other chunk. -/
theorem reap_targets_exactly_stale_running (now threshold : Int)
    (chunks : List ChunkRow) :
    (∀ c, c ∈ detect_stale_chunks now threshold chunks ↔
        c ∈ chunks ∧ StaleRunning now threshold c) ∧
    (∀ c, StaleRunning now threshold c →
        reapOne now threshold c =
          failChunk now "heartbeat timeout" { c with workerId := none } ∧
        (reapOne now threshold c).workerId = none ∧
        (reapOne now threshold c).lastError = some "heartbeat timeout" ∧
        (reapOne now threshold c).retryCount = c.retryCount + 1) ∧
    (∀ c, ¬ StaleRunning now threshold c → reapOne now threshold c = c) ∧
    reapDeadWorkers now threshold chunks = chunks.map (reapOne now threshold) := by
  refine ⟨?_, ?_, ?_, rfl⟩
  · intro c
    simp [detect_stale_chunks, List.mem_filter, isStaleRunning_iff]
  · intro c hc
    have hb := (isStaleRunning_iff now threshold c).mpr hc
    refine ⟨by simp [reapOne, hb], ?_, ?_, ?_⟩ <;>
      · simp only [reapOne, hb, if_true, failChunk]
        by_cases h2 : c.retryCount + 1 < c.maxRetries <;> simp [h2]
  · intro c hc
    have hb : isStaleRunning now threshold c = false := by
      cases hv : isStaleRunning now threshold c
      · rfl
      · exact absurd ((isStaleRunning_iff now threshold c).mp hv) hc
    simp [reapOne, hb]

/-- A running chunk whose heartbeat is 180 seconds old. -/
def exChunkStale : ChunkRow :=
  { exChunkRunning with lastHeartbeat := some 20 }

/-- Witness for C3 at now = 200 with the default threshold 120: the chunk
with heartbeat at 20 (180 s old) is selected and reaped; the terminally
failed chunk is untouched. -/
theorem reap_targets_exactly_stale_running_witness :
    exChunkStale ∈
      detect_stale_chunks 200 defaultLivenessThresholdSeconds
        [exChunkStale, exChunkFailedOnce] ∧
    reapOne 200 defaultLivenessThresholdSeconds exChunkStale =
      failChunk 200 "heartbeat timeout" { exChunkStale with workerId := none } ∧
    reapOne 200 defaultLivenessThresholdSeconds exChunkFailedOnce =
      exChunkFailedOnce := by
  have h := reap_targets_exactly_stale_running 200
    defaultLivenessThresholdSeconds [exChunkStale, exChunkFailedOnce]
  have hstale : StaleRunning 200 defaultLivenessThresholdSeconds exChunkStale :=
    ⟨rfl, 20, rfl, by decide⟩
  refine ⟨(h.1 exChunkStale).mpr ⟨by simp, hstale⟩,
          (h.2.1 exChunkStale hstale).1,
          h.2.2.1 exChunkFailedOnce ?_⟩
  intro hS
  exact absurd hS.1 (by decide)

/-- Default minimum chunk count before the supervisor may auto-fail a job
(spec section 4.4 step 3: default 20). -/
def supervisorMinChunks : Nat := 20

/-- Schema default for migration_jobs.failure_threshold_percent
(src/schema_enhancements.sql:22, DEFAULT 5). -/
def defaultFailureThresholdPercent : Nat := 5

/-- A job is non-terminal when its status is neither completed nor failed. -/
def jobNonTerminal (j : JobRow) : Bool :=
  !(j.status == "completed" || j.status == "failed")

/-- Modelled from the spec: the supervisor tick of section 4.4 step 3 is not
under src/; src/ holds only its schema artifacts (failure_threshold_percent
and auto_failed_at in src/schema_enhancements.sql:21-23, and the failure
rate of job_health_view, src/schema_enhancements.sql:26-46, which is
expressed in percent).  A non-terminal job whose failure rate in percent
reaches failure_threshold_percent and whose total_chunks reaches the minimum
transitions to failed with auto_failed_at stamped; the comparison
failed / max(total, 1) * 100 >= threshold is held in integers as
threshold * max(total, 1) <= 100 * failed. -/
def superviseJob (now : Int) (minChunks : Nat) (j : JobRow) : JobRow :=
  if jobNonTerminal j = true ∧
      j.failureThresholdPercent * max j.totalChunks 1 ≤ 100 * j.failedChunks ∧
      minChunks ≤ j.totalChunks then
    { j with
      status := "failed"
      autoFailedAt := some now }
  else j

/-- Modelled from the spec: one supervisor tick evaluates every job. -/
def supervisorTick (now : Int) (minChunks : Nat) (jobs : List JobRow) :
    List JobRow :=
  jobs.map (superviseJob now minChunks)

/-- C5: on a supervisor tick every job is evaluated; the integer comparison
used by superviseJob is exactly "failure rate failed/max(total,1), in
percent, at least failure_threshold_percent"; a non-terminal job meeting the
rate and the minimum-chunk conditions transitions to failed with
auto_failed_at stamped with the tick time, and any other job is left
untouched. -/
theorem supervisorTick_autofails_over_threshold (now : Int) (minChunks : Nat)
    (jobs : List JobRow) (j : JobRow) :
    supervisorTick now minChunks jobs = jobs.map (superviseJob now minChunks) ∧
    ((j.failureThresholdPercent : ℚ) ≤
        (j.failedChunks : ℚ) * 100 / ((max j.totalChunks 1 : Nat) : ℚ) ↔
      j.failureThresholdPercent * max j.totalChunks 1 ≤ 100 * j.failedChunks) ∧
    (jobNonTerminal j = true →
      j.failureThresholdPercent * max j.totalChunks 1 ≤ 100 * j.failedChunks →
      minChunks ≤ j.totalChunks →
      superviseJob now minChunks j =
        { j with status := "failed", autoFailedAt := some now }) ∧
    (¬ (jobNonTerminal j = true ∧
        j.failureThresholdPercent * max j.totalChunks 1 ≤ 100 * j.failedChunks ∧
        minChunks ≤ j.totalChunks) →
      superviseJob now minChunks j = j) := by
  refine ⟨rfl, ?_, ?_, ?_⟩
  · have hpos : (0 : ℚ) < ((max j.totalChunks 1 : Nat) : ℚ) := by
      exact_mod_cast Nat.lt_of_lt_of_le Nat.zero_lt_one (le_max_right _ _)
    rw [le_div_iff₀ hpos,
      show (j.failedChunks : ℚ) * 100 = ((100 * j.failedChunks : Nat) : ℚ) by
        push_cast; ring,
      show (j.failureThresholdPercent : ℚ) * ((max j.totalChunks 1 : Nat) : ℚ)
          = ((j.failureThresholdPercent * max j.totalChunks 1 : Nat) : ℚ) by
        push_cast; ring]
    exact Nat.cast_le
  · intro h1 h2 h3
    simp [superviseJob, h1, h2, h3]
  · intro h
    simp only [superviseJob, if_neg h]

/-- A running job over the failure threshold: 2 failed of 20 chunks is 10
percent, at least the default threshold of 5 percent. -/
def exJobUnhealthy : JobRow :=
  { id := 2, status := "running", totalTables := 1, totalChunks := 20,
    completedChunks := 10, failedChunks := 2, failureThresholdPercent := 5,
    autoFailedAt := none }

/-- Witness for C5: the unhealthy job is auto-failed at tick time 500 under
the default minimum of 20 chunks. -/
theorem supervisorTick_autofails_over_threshold_witness :
    superviseJob 500 supervisorMinChunks exJobUnhealthy =
      { exJobUnhealthy with status := "failed", autoFailedAt := some 500 } :=
  (supervisorTick_autofails_over_threshold 500 supervisorMinChunks []
      exJobUnhealthy).2.2.1 (by decide) (by decide) (by decide)

/-- The CHECK constraint on migration_jobs.status (src/schema.sql:85-87). -/
def migration_jobs_status_check (s : String) : Bool :=
  s == "pending" || s == "planning" || s == "running" || s == "completed" ||
    s == "failed" || s == "paused"

/-- The CHECK constraint on migration_tables.status (src/schema.sql:128-130). -/
def migration_tables_status_check (s : String) : Bool :=
  s == "pending" || s == "running" || s == "completed" || s == "failed"

/-- The CHECK constraint on migration_chunks.status (src/schema.sql:155-157). -/
def migration_chunks_status_check (s : String) : Bool :=
  s == "pending" || s == "running" || s == "completed" || s == "failed"

/-- The CHECK constraint on migration_chunks.validation_status
(src/schema_enhancements.sql:12). -/
def validation_status_check (s : String) : Bool :=
  s == "pending" || s == "validated" || s == "failed"

/-- The constraint the schema places on worker_heartbeats.status
(src/schema.sql:190-195): the column is declared VARCHAR(30) DEFAULT 'idle'
with no CHECK clause at all, so the schema accepts every string. -/
def worker_heartbeats_status_check (_s : String) : Bool := true

/-- C6 counterexample: worker_heartbeats.status carries no closed-set CHECK
constraint — the schema accepts the status "corrupt", which is outside the
spec's closed set for worker records. -/
theorem worker_heartbeats_status_unconstrained :
    worker_heartbeats_status_check "corrupt" = true ∧
    ¬ ("corrupt" ∈ (["idle", "busy", "draining"] : List String)) := by
  refine ⟨rfl, by decide⟩

/-- C6 (amended): the status columns of migration_jobs, migration_tables and
migration_chunks and the chunks' validation_status each carry a CHECK
constraint admitting exactly their spec-listed closed set, while
worker_heartbeats.status carries no CHECK constraint and admits every
string. -/
theorem status_check_constraints_closed_sets (s : String) :
    (migration_jobs_status_check s = true ↔
      s ∈ (["pending", "planning", "running", "completed", "failed",
        "paused"] : List String)) ∧
    (migration_tables_status_check s = true ↔
      s ∈ (["pending", "running", "completed", "failed"] : List String)) ∧
    (migration_chunks_status_check s = true ↔
      s ∈ (["pending", "running", "completed", "failed"] : List String)) ∧
    (validation_status_check s = true ↔
      s ∈ (["pending", "validated", "failed"] : List String)) ∧
    worker_heartbeats_status_check s = true := by
  refine ⟨?_, ?_, ?_, ?_, rfl⟩ <;>
    simp [migration_jobs_status_check, migration_tables_status_check,
      migration_chunks_status_check, validation_status_check, or_assoc]

/-- The formData state of the CreateJob page (src/unnamed/part_001:12-24):
all twelve controlled inputs, held as strings. -/
structure CreateJobFormData where
  sourceHost : String
  sourcePort : String
  sourceUser : String
  sourcePassword : String
  sourceDatabase : String
  targetHost : String
  targetPort : String
  targetUser : String
  targetPassword : String
  targetDatabase : String
  chunkSize : String
  batchSize : String
  deriving Repr, DecidableEq

/-- The initial value of CreateJob.formData (src/unnamed/part_001:12-24):
connection fields empty, ports "3306", chunkSize "100000" and batchSize
"1000"; batch_size is submitted to createJob as parseInt of this field
(src/unnamed/part_001:56). -/
def createJobInitialFormData : CreateJobFormData :=
  { sourceHost := "", sourcePort := "3306", sourceUser := "",
    sourcePassword := "", sourceDatabase := "", targetHost := "",
    targetPort := "3306", targetUser := "", targetPassword := "",
    targetDatabase := "", chunkSize := "100000", batchSize := "1000" }

/-- Schema default of migration_chunks.batch_size_used
(src/schema_performance.sql:12, DEFAULT 5000). -/
def defaultBatchSizeUsed : Nat := 5000

/-- Upper batch bound (spec section 4.6: max_batch = 50,000). -/
def maxBatchSize : Nat := 50000

/-- Lower batch bound (spec section 4.6: min_batch = 500). -/
def minBatchSize : Nat := 500

/-- Default target insert latency (spec section 4.6: 200 ms). -/
def defaultTargetLatencyMs : Nat := 200

/-- A row of batch_size_history (src/schema_performance.sql:71-84). -/
structure BatchAdjustment where
  workerId : String
  oldBatchSize : Nat
  newBatchSize : Nat
  avgLatencyMs : Nat
  targetLatencyMs : Nat
  adjustmentReason : String
  deriving Repr, DecidableEq

/-- Modelled from the spec: the adaptive batch-size decision of section 4.6
is not under src/ (only the batch_size_history table is).  Growth by the
factor 1.5 is taken in integer arithmetic as current * 3 / 2; the latency
comparisons avg < 0.5 * target and avg > 1.5 * target are held in integers
as 2 * avg < target and 2 * avg > 3 * target. -/
def adjustBatchSize (current avgLatency targetLatency : Nat) : Nat :=
  if 2 * avgLatency < targetLatency then min (current * 3 / 2) maxBatchSize
  else if 3 * targetLatency < 2 * avgLatency then max (current / 2) minBatchSize
  else current

/-- The batch_size_history row written for one adjustment: old size, new
size, measured average latency, target latency and a reason naming the
direction. -/
def adjustmentRecord (workerId : String)
    (oldBatch newBatch avgLatency targetLatency : Nat) : BatchAdjustment :=
  { workerId := workerId, oldBatchSize := oldBatch,
    newBatchSize := newBatch, avgLatencyMs := avgLatency,
    targetLatencyMs := targetLatency,
    adjustmentReason :=
      if 2 * avgLatency < targetLatency then "latency below target"
      else "latency above target" }

/-- Modelled from the spec: one adaptive-controller step; every actual
adjustment is appended to batch_size_history with the old size, the new
size, the measured average latency, the target latency and a reason. -/
def adaptiveStep (workerId : String) (current avgLatency targetLatency : Nat)
    (history : List BatchAdjustment) : Nat × List BatchAdjustment :=
  let newBatch := adjustBatchSize current avgLatency targetLatency
  if newBatch ≠ current then
    (newBatch,
      history ++ [adjustmentRecord workerId current newBatch avgLatency
        targetLatency])
  else (current, history)

/-- C7 counterexample: the job default batch size is not 5,000 — the
CreateJob form initializes batchSize to "1000" and submits that value as the
job's batch_size. -/
theorem createJob_default_batch_size_is_1000 :
    createJobInitialFormData.batchSize = "1000" ∧
    createJobInitialFormData.batchSize ≠ "5000" :=
  ⟨rfl, by decide⟩

/-- C7 (amended): the controller starts from the job's configured batch size
(the CreateJob form defaults it to 1,000, while the chunks' batch_size_used
column defaults to 5,000); after each avg-latency sample it grows the batch
to min(current * 1.5, 50,000) when avg < 0.5 * target, shrinks it to
max(current / 2, 500) when avg > 1.5 * target, leaves it unchanged
otherwise, and appends every adjustment to batch_size_history with old, new,
avg latency, target latency and reason. -/
theorem adaptive_batch_controller_rule (w : String)
    (current avgLatency targetLatency : Nat)
    (history : List BatchAdjustment) :
    createJobInitialFormData.batchSize = "1000" ∧
    (2 * avgLatency < targetLatency →
      adjustBatchSize current avgLatency targetLatency =
        min (current * 3 / 2) maxBatchSize) ∧
    (3 * targetLatency < 2 * avgLatency →
      adjustBatchSize current avgLatency targetLatency =
        max (current / 2) minBatchSize) ∧
    (¬ 2 * avgLatency < targetLatency → ¬ 3 * targetLatency < 2 * avgLatency →
      adjustBatchSize current avgLatency targetLatency = current) ∧
    ((adaptiveStep w current avgLatency targetLatency history).1 =
      adjustBatchSize current avgLatency targetLatency) ∧
    (adjustBatchSize current avgLatency targetLatency ≠ current →
      (adaptiveStep w current avgLatency targetLatency history).2 =
        history ++ [adjustmentRecord w current
          (adjustBatchSize current avgLatency targetLatency) avgLatency
          targetLatency]) ∧
    (adjustBatchSize current avgLatency targetLatency = current →
      (adaptiveStep w current avgLatency targetLatency history).2 = history) := by
  refine ⟨rfl, ?_, ?_, ?_, ?_, ?_, ?_⟩
  · intro h
    simp [adjustBatchSize, h]
  · intro h
    have h1 : ¬ 2 * avgLatency < targetLatency := by omega
    simp [adjustBatchSize, h1, h]
  · intro h1 h2
    simp [adjustBatchSize, h1, h2]
  · by_cases h : adjustBatchSize current avgLatency targetLatency ≠ current
    · simp [adaptiveStep, h]
    · rw [not_ne_iff] at h
      simp [adaptiveStep, h]
  · intro h
    simp [adaptiveStep, h]
  · intro h
    simp [adaptiveStep, h]

/-- Witness for C7 at scenario 4 of the spec: from batch 5,000 with average
latency 60 ms against the 200 ms target, the controller grows the batch to
7,500 and logs the adjustment. -/
theorem adaptive_batch_controller_rule_witness :
    adjustBatchSize 5000 60 defaultTargetLatencyMs = 7500 ∧
    (adaptiveStep "w1" 5000 60 defaultTargetLatencyMs []).2 =
      [⟨"w1", 5000, 7500, 60, 200, "latency below target"⟩] := by
  have h := adaptive_batch_controller_rule "w1" 5000 60 defaultTargetLatencyMs []
  have hgrow : adjustBatchSize 5000 60 defaultTargetLatencyMs = 7500 := by
    rw [h.2.1 (by decide)]
    decide
  refine ⟨hgrow, ?_⟩
  rw [h.2.2.2.2.2.1 (by rw [hgrow]; decide), hgrow]
  decide

/-- Default chunk size in rows (spec section 4.3: 100,000; the CreateJob
form defaults chunkSize to "100000" as well, src/unnamed/part_001:23). -/
def defaultChunkSize : Nat := 100000

/-- Number of chunks for rowCount rows at chunkSize rows per chunk: the
ceiling of rowCount / chunkSize, computed as (rowCount + chunkSize - 1) /
chunkSize (spec section 4.3 step 3). -/
def numChunks (rowCount chunkSize : Nat) : Nat :=
  (rowCount + chunkSize - 1) / chunkSize

/-- Width of the pk sub-ranges when [minPk, maxPk] is split n ways. -/
def chunkStep (minPk maxPk n : Nat) : Nat := (maxPk - minPk) / n

/-- Modelled from the spec: the planner (section 4.3) is not under src/;
only the migration_chunks rows it writes are (src/schema.sql:144-177).
Chunk i of n starts at minPk + i * step with step = (maxPk - minPk) / n and
runs up to the next chunk's start, except the last chunk, which runs up to
maxPk; this reproduces scenario 1 of section 8, where 250,000 rows with ids
1..250,000 at chunk_size 100,000 give the starts 1, 83334 and 166667. -/
def plannedChunk (minPk maxPk n i : Nat) : Nat × Nat :=
  (minPk + i * chunkStep minPk maxPk n,
   if i + 1 = n then maxPk else minPk + (i + 1) * chunkStep minPk maxPk n)

/-- Modelled from the spec: the full plan of one table with rowCount rows;
an empty table gets no chunks (section 4.3 step 2, policy skip). -/
def planChunks (minPk maxPk rowCount chunkSize : Nat) : List (Nat × Nat) :=
  if rowCount = 0 then []
  else (List.range (numChunks rowCount chunkSize)).map
    (plannedChunk minPk maxPk (numChunks rowCount chunkSize))

/-- A row pk lies in planned chunk i of n: the ranges are half-open
[lo, hi) except the last, which is [lo, maxPk] inclusive. -/
def InChunk (minPk maxPk n i pk : Nat) : Prop :=
  (plannedChunk minPk maxPk n i).1 ≤ pk ∧
  (if i + 1 = n then pk ≤ (plannedChunk minPk maxPk n i).2
   else pk < (plannedChunk minPk maxPk n i).2)

/-- Membership in the last planned chunk is the inclusive range from its
start to maxPk. -/
theorem inChunk_last (m M n : Nat) (hn : 0 < n) (pk : Nat) :
    InChunk m M n (n - 1) pk ↔
      m + (n - 1) * chunkStep m M n ≤ pk ∧ pk ≤ M := by
  have h : n - 1 + 1 = n := by omega
  simp [InChunk, plannedChunk, h]

/-- Membership in a non-last planned chunk is the half-open range up to the
next chunk's start. -/
theorem inChunk_mid (m M n i pk : Nat) (h : i + 1 ≠ n) :
    InChunk m M n i pk ↔
      m + i * chunkStep m M n ≤ pk ∧
        pk < m + (i + 1) * chunkStep m M n := by
  simp [InChunk, plannedChunk, h]

/-- Every pk between minPk and maxPk lies in exactly one of the n planned
chunks. -/
theorem plannedChunk_mem_unique (m M n pk : Nat) (hn : 0 < n)
    (h1 : m ≤ pk) (h2 : pk ≤ M) :
    ∃! i, i < n ∧ InChunk m M n i pk := by
  by_cases hs0 : chunkStep m M n = 0
  · refine ⟨n - 1, ⟨by omega, ?_⟩, ?_⟩
    · exact (inChunk_last m M n hn pk).mpr ⟨by rw [hs0]; omega, h2⟩
    · rintro i ⟨hi, hmem⟩
      by_cases hin : i + 1 = n
      · omega
      · exfalso
        have hm := (inChunk_mid m M n i pk hin).mp hmem
        rw [hs0] at hm
        omega
  · have hs : 0 < chunkStep m M n := by omega
    have hdivmul : (pk - m) / chunkStep m M n * chunkStep m M n ≤ pk - m :=
      Nat.div_mul_le_self _ _
    have hdlt : pk - m < ((pk - m) / chunkStep m M n + 1) * chunkStep m M n :=
      (Nat.div_lt_iff_lt_mul hs).mp (Nat.lt_succ_self _)
    by_cases hj : (pk - m) / chunkStep m M n < n - 1
    · refine ⟨(pk - m) / chunkStep m M n, ⟨by omega, ?_⟩, ?_⟩
      · exact (inChunk_mid m M n _ pk (by omega)).mpr ⟨by omega, by omega⟩
      · rintro i ⟨hi, hmem⟩
        by_cases hin : i + 1 = n
        · exfalso
          have hieq : i = n - 1 := by omega
          rw [hieq] at hmem
          have hlast := (inChunk_last m M n hn pk).mp hmem
          have hle : n - 1 ≤ (pk - m) / chunkStep m M n :=
            (Nat.le_div_iff_mul_le hs).mpr (by omega)
          omega
        · have hm := (inChunk_mid m M n i pk hin).mp hmem
          have hle : i ≤ (pk - m) / chunkStep m M n :=
            (Nat.le_div_iff_mul_le hs).mpr (by omega)
          have hlt : (pk - m) / chunkStep m M n < i + 1 :=
            (Nat.div_lt_iff_lt_mul hs).mpr (by omega)
          omega
    · refine ⟨n - 1, ⟨by omega, ?_⟩, ?_⟩
      · refine (inChunk_last m M n hn pk).mpr ⟨?_, h2⟩
        have hmul : (n - 1) * chunkStep m M n ≤
            (pk - m) / chunkStep m M n * chunkStep m M n :=
          mul_le_mul_right' (by omega) _
        omega
      · rintro i ⟨hi, hmem⟩
        by_cases hin : i + 1 = n
        · omega
        · exfalso
          have hm := (inChunk_mid m M n i pk hin).mp hmem
          have hlt : (pk - m) / chunkStep m M n < i + 1 :=
            (Nat.div_lt_iff_lt_mul hs).mpr (by omega)
          omega

/-- C8: for a table with rowCount > 0 the planner creates exactly
ceil(rowCount / chunkSize) chunks — the chunk count multiplied by chunkSize
is the least multiple reaching rowCount — splitting [minPk, maxPk] into
half-open ranges with an inclusive last range, such that every pk in
[minPk, maxPk] belongs to exactly one chunk: the union of the ranges covers
the span, and no two distinct chunks share a row. -/
theorem planner_chunks_partition (minPk maxPk rowCount chunkSize : Nat)
    (hr : 0 < rowCount) (hc : 0 < chunkSize) (_hmM : minPk ≤ maxPk) :
    (planChunks minPk maxPk rowCount chunkSize).length =
      numChunks rowCount chunkSize ∧
    rowCount ≤ numChunks rowCount chunkSize * chunkSize ∧
    (∀ k, rowCount ≤ k * chunkSize → numChunks rowCount chunkSize ≤ k) ∧
    (∀ pk, minPk ≤ pk → pk ≤ maxPk →
      ∃! i, i < numChunks rowCount chunkSize ∧
        InChunk minPk maxPk (numChunks rowCount chunkSize) i pk) := by
  have hn : 0 < numChunks rowCount chunkSize :=
    (Nat.le_div_iff_mul_le hc).mpr (by omega)
  refine ⟨?_, ?_, ?_, fun pk hp1 hp2 =>
    plannedChunk_mem_unique minPk maxPk _ pk hn hp1 hp2⟩
  · simp [planChunks, hr.ne']
  · have hdm : chunkSize * numChunks rowCount chunkSize +
        (rowCount + chunkSize - 1) % chunkSize = rowCount + chunkSize - 1 :=
      Nat.div_add_mod _ chunkSize
    have hmod : (rowCount + chunkSize - 1) % chunkSize < chunkSize :=
      Nat.mod_lt _ hc
    have hcomm : chunkSize * numChunks rowCount chunkSize =
        numChunks rowCount chunkSize * chunkSize := Nat.mul_comm _ _
    omega
  · intro k hk
    have hdef : numChunks rowCount chunkSize =
        (rowCount + chunkSize - 1) / chunkSize := rfl
    by_contra hcon
    push_neg at hcon
    rw [hdef] at hcon
    have h2 : (k + 1) * chunkSize ≤ rowCount + chunkSize - 1 :=
      (Nat.le_div_iff_mul_le hc).mp (by omega)
    have h3 : (k + 1) * chunkSize = k * chunkSize + chunkSize :=
      Nat.succ_mul k chunkSize
    omega

/-- Witness for C8 at scenario 1 of the spec: 250,000 rows with ids from 1
to 250,000 at the default chunk size split into exactly 3 chunks that
partition the id span. -/
theorem planner_chunks_partition_witness :
    (planChunks 1 250000 250000 defaultChunkSize).length =
      numChunks 250000 defaultChunkSize ∧
    250000 ≤ numChunks 250000 defaultChunkSize * defaultChunkSize ∧
    (∀ k, 250000 ≤ k * defaultChunkSize →
      numChunks 250000 defaultChunkSize ≤ k) ∧
    (∀ pk, 1 ≤ pk → pk ≤ 250000 →
      ∃! i, i < numChunks 250000 defaultChunkSize ∧
        InChunk 1 250000 (numChunks 250000 defaultChunkSize) i pk) :=
  planner_chunks_partition 1 250000 250000 defaultChunkSize
    (by decide) (by decide) (by decide)

/-- Postgres ROUND(x, 2) on the nonnegative progress values
(src/schema.sql:216): round half away from zero at two decimals, which for
nonnegative x is floor(100 x + 1/2) / 100. -/
def sqlRound2 (x : ℚ) : ℚ := (⌊x * 100 + 1 / 2⌋ : ℚ) / 100

/-- JavaScript Math.round on the nonnegative UI progress values:
floor(x + 1/2). -/
def jsMathRound (x : ℚ) : ℤ := ⌊x + 1 / 2⌋

/-- The progress_percentage column of v_job_progress (src/schema.sql:214-218):
0 when total_chunks is 0, otherwise completed / total * 100 rounded to two
decimals.  The identical CASE guards v_table_progress
(src/schema.sql:236-240). -/
def progress_percentage (completedChunks totalChunks : Nat) : ℚ :=
  if 0 < totalChunks then
    sqlRound2 ((completedChunks : ℚ) / (totalChunks : ℚ) * 100)
  else 0

/-- calculateProgress of the Dashboard page (src/unnamed/part_002:73-76):
0 when the job's total_chunks is 0, else Math.round(completed / total * 100). -/
def dashboardCalculateProgress (j : JobRow) : ℤ :=
  if j.totalChunks = 0 then 0
  else jsMathRound ((j.completedChunks : ℚ) / (j.totalChunks : ℚ) * 100)

/-- calculateProgress of the Job Detail page
(src/ui/src/pages/JobDetail.jsx:96-99): 0 when total is 0, else
Math.round(completed / total * 100). -/
def jobDetailCalculateProgress (completed total : Nat) : ℤ :=
  if total = 0 then 0
  else jsMathRound ((completed : ℚ) / (total : ℚ) * 100)

/-- C9: every progress computation is total — each returns 0 when
total_chunks is 0 and the rounded completed / total * 100 otherwise, the
Dashboard function agrees with the Job Detail function on the job's
counters, and the results stay within [0, 100] whenever completed does not
exceed total, so the division-by-zero branch is never reached. -/
theorem progress_computations_total_and_bounded (j : JobRow) (c t : Nat) :
    (t = 0 → progress_percentage c t = 0 ∧ jobDetailCalculateProgress c t = 0) ∧
    (0 < t →
      progress_percentage c t = sqlRound2 ((c : ℚ) / (t : ℚ) * 100) ∧
      jobDetailCalculateProgress c t = jsMathRound ((c : ℚ) / (t : ℚ) * 100)) ∧
    dashboardCalculateProgress j =
      jobDetailCalculateProgress j.completedChunks j.totalChunks ∧
    0 ≤ progress_percentage c t ∧
    (c ≤ t →
      progress_percentage c t ≤ 100 ∧ jobDetailCalculateProgress c t ≤ 100) := by
  refine ⟨?_, ?_, rfl, ?_, ?_⟩
  · intro h
    subst h
    simp [progress_percentage, jobDetailCalculateProgress]
  · intro h
    have h0 : t ≠ 0 := by omega
    simp [progress_percentage, jobDetailCalculateProgress, h, h0]
  · by_cases ht : 0 < t
    · simp only [progress_percentage, if_pos ht, sqlRound2]
      have hx : (0 : ℚ) ≤ (c : ℚ) / (t : ℚ) * 100 := by positivity
      have hfl : (0 : ℤ) ≤ ⌊(c : ℚ) / (t : ℚ) * 100 * 100 + 1 / 2⌋ :=
        Int.floor_nonneg.mpr (by positivity)
      have hq : (0 : ℚ) ≤ (⌊(c : ℚ) / (t : ℚ) * 100 * 100 + 1 / 2⌋ : ℚ) := by
        exact_mod_cast hfl
      positivity
    · simp [progress_percentage, ht]
  · intro hct
    by_cases ht : 0 < t
    · have htq : (0 : ℚ) < (t : ℚ) := by exact_mod_cast ht
      have hcq : (c : ℚ) ≤ (t : ℚ) := by exact_mod_cast hct
      have hx : (c : ℚ) / (t : ℚ) * 100 ≤ 100 := by
        rw [div_mul_eq_mul_div, div_le_iff₀ htq]
        nlinarith
      constructor
      · simp only [progress_percentage, if_pos ht, sqlRound2]
        have hfl : ⌊(c : ℚ) / (t : ℚ) * 100 * 100 + 1 / 2⌋ < 10001 :=
          Int.floor_lt.mpr (by push_cast; nlinarith)
        rw [div_le_iff₀ (by norm_num : (0 : ℚ) < 100)]
        have hq : ((⌊(c : ℚ) / (t : ℚ) * 100 * 100 + 1 / 2⌋ : ℤ) : ℚ) ≤ 10000 := by
          exact_mod_cast Int.lt_add_one_iff.mp hfl
        linarith
      · have h0 : t ≠ 0 := by omega
        simp only [jobDetailCalculateProgress, if_neg h0, jsMathRound]
        have hfl : ⌊(c : ℚ) / (t : ℚ) * 100 + 1 / 2⌋ < 101 :=
          Int.floor_lt.mpr (by push_cast; linarith)
        omega
    · have h0 : t = 0 := by omega
      subst h0
      simp [progress_percentage, jobDetailCalculateProgress]

/-- Witness for C9: one completed chunk of four is 25 percent in both the
SQL view and the UI, and a zero-chunk job reads 0 percent. -/
theorem progress_computations_total_and_bounded_witness :
    progress_percentage 1 4 = 25 ∧ jobDetailCalculateProgress 1 4 = 25 ∧
    progress_percentage 7 0 = 0 ∧ jobDetailCalculateProgress 7 0 = 0 := by
  have h1 := progress_computations_total_and_bounded exJob 1 4
  have h2 := progress_computations_total_and_bounded exJob 7 0
  refine ⟨?_, ?_, (h2.1 rfl).1, (h2.1 rfl).2⟩
  · rw [(h1.2.1 (by norm_num)).1]
    norm_num [sqlRound2]
  · rw [(h1.2.1 (by norm_num)).2]
    norm_num [jsMathRound]

end MySQLMigration
